import Mathlib

/-
Verification of the AVR-Multislope acquisition core against its design
specification. The definitions below are shallow embeddings of the C++
sources: machine integers become Nat/Int with explicit reductions
modulo 2^16, 2^32 or 2^64 exactly where the C code truncates, interrupt
handlers become pure state-transition functions, and hardware registers
become record fields.
-/

/-! ## Fixed-point packer, from src/arithmetic.h (pack_q0_32) -/

/--
Shallow embedding of `pack_q0_32(uint32_t I, uint16_t K, uint32_t J, uint16_t D)`.
In the source: `denom = (uint32_t)(J * (uint32_t)D)` (32-bit product, hence
the reduction modulo 2^32); `numer = (uint64_t)I * (uint32_t)D + (uint32_t)K`
(64-bit arithmetic, reduction modulo 2^64); if `numer >= denom` the function
returns the saturation value `0xFFFFFFFF`; otherwise it returns
`(uint32_t)(((numer << 32) + denom/2) / denom)` where the shift and the
addition are 64-bit operations and the final cast truncates to 32 bits.
-/
def pack_q0_32 (I K J D : ℕ) : ℕ :=
  if J * D % 4294967296 ≤ (I * D + K) % 18446744073709551616 then
    4294967295
  else
    ((I * D + K) % 18446744073709551616 * 4294967296 + J * D % 4294967296 / 2)
      % 18446744073709551616 / (J * D % 4294967296) % 4294967296

/-! ## Measurement status and globals, from status.h and globals.h -/

/-- The `Status` enumeration of the measurement state machine (status.h). -/
inductive Status : Type where
  | CLEAN : Status
  | PREV_CHARGE : Status
  | NEGATIVE_COUNTS : Status
  | RESULT_AVAIL : Status
deriving DecidableEq, Repr

/--
The `Globals` struct (globals.h): `previous_charge` and `charge_difference`
are `volatile int16_t`, `negative_counts` is `volatile int32_t`, and
`status` is the machine state. Initialized in globals.cpp to all zeroes
with status `CLEAN`.
-/
structure Globals : Type where
  previous_charge : ℤ
  charge_difference : ℤ
  negative_counts : ℤ
  status : Status
deriving DecidableEq, Repr

/-- Reduction of an integer into the `int16_t` range, as performed by a C
store into a 16-bit signed variable. -/
def wrap16 (z : ℤ) : ℤ :=
  (z + 32768) % 65536 - 32768

/-- Reduction of an integer into the `int32_t` range. -/
def wrap32 (z : ℤ) : ℤ :=
  (z + 2147483648) % 4294967296 - 2147483648

/--
Shallow embedding of `ISR(ADC0_RESRDY_vect)` from src/interrupts.cpp.
The handler reads the signed 16-bit ADC result and switches on
`globals->status`: in `CLEAN` it stores the sample as baseline and moves to
`PREV_CHARGE`; in `PREV_CHARGE` it does nothing (the body is only a
`// todo trigger error condition` comment); in `NEGATIVE_COUNTS` it stores
`adc_result - previous_charge` into the 16-bit `charge_difference`, stores
the new baseline and moves to `RESULT_AVAIL`; in `RESULT_AVAIL` it again
does nothing beyond a todo comment.
-/
def adc0_resrdy_isr (g : Globals) (adc_result : ℤ) : Globals :=
  match g.status with
  | Status.CLEAN =>
      { g with previous_charge := adc_result, status := Status.PREV_CHARGE }
  | Status.PREV_CHARGE => g
  | Status.NEGATIVE_COUNTS =>
      { g with
        charge_difference := wrap16 (adc_result - g.previous_charge),
        previous_charge := adc_result,
        status := Status.RESULT_AVAIL }
  | Status.RESULT_AVAIL => g

/--
Shallow embedding of `WindowCounter::isr` (window boundary handler) from
the globals/window translation unit. In source order it acknowledges the
hardware flag, computes an unused timestamp, and then performs:
`previous_charge = charge_difference` (overwriting the stored baseline),
`charge_difference = negative_counter.get_count()` (an `int32_t` truncated
into the 16-bit field, embedded as `wrap16 count1`),
`negative_counts = negative_counter.get_count()` (a second read of the
live counter, hence the separate `count2`), and `status = NEGATIVE_COUNTS`.
-/
def window_counter_isr (g : Globals) (count1 count2 : ℤ) : Globals :=
  { g with
    previous_charge := g.charge_difference,
    charge_difference := wrap16 count1,
    negative_counts := count2,
    status := Status.NEGATIVE_COUNTS }

/-! ## Window counter configuration, from src/window_counter.hpp -/

/-- The `WindowLength` enumeration (window_counter.hpp lines 45-58); the
underlying `uint16_t` values are given by `WindowLength.val`. -/
inductive WindowLength : Type where
  | PLC_0_02 | PLC_0_1 | PLC_0_2 | PLC_0_5
  | PLC_1 | PLC_2 | PLC_5 | PLC_10
  | PLC_20 | PLC_50 | PLC_100 | PLC_200
deriving DecidableEq, Repr

/-- Underlying value of each `WindowLength` enumerator. -/
def WindowLength.val : WindowLength → ℕ
  | .PLC_0_02 => 5
  | .PLC_0_1 => 25
  | .PLC_0_2 => 50
  | .PLC_0_5 => 125
  | .PLC_1 => 250
  | .PLC_2 => 500
  | .PLC_5 => 1250
  | .PLC_10 => 2500
  | .PLC_20 => 5000
  | .PLC_50 => 12500
  | .PLC_100 => 25000
  | .PLC_200 => 50000

/-- The `GridFrequency` enumeration: the value is the TCB2 sub-counter
period (30 counts per window slice at 50 Hz, 25 at 60 Hz). -/
inductive GridFrequency : Type where
  | FREQ_50HZ | FREQ_60HZ
deriving DecidableEq, Repr

/-- Underlying value of each `GridFrequency` enumerator. -/
def GridFrequency.val : GridFrequency → ℕ
  | .FREQ_50HZ => 30
  | .FREQ_60HZ => 25

/--
The configuration state of the `WindowCounter` class: the private members
`tcb2_cmp`, `tcb3_cmp`, `tcb2_reload`, `tcb3_reload`, `period_m`
(an `int32_t`) and the hardware compare register `TCB3.CCMP`. The counter
CNT registers touched by `reset()` are live counter state, not
configuration, and are not part of this record.
-/
structure WindowCounterConfig : Type where
  tcb2_cmp : ℕ
  tcb3_cmp : ℕ
  tcb2_reload : ℕ
  tcb3_reload : ℕ
  tcb3_ccmp : ℕ
  period_m : ℤ
deriving DecidableEq, Repr

/-- Subtraction of `1u` in 16-bit unsigned arithmetic, as in
`static_cast<uint16_t>(x) - 1u` on the AVR target where `unsigned int`
is 16 bits wide. -/
def u16sub1 (x : ℕ) : ℕ :=
  (x % 65536 + 65535) % 65536

/--
Shallow embedding of `WindowCounter::set_period`, which computes
`period_m = (int32_t)(tcb2_cmp + 1u) * ((int32_t)tcb3_cmp + 1)`: the inner
`tcb2_cmp + 1u` is 16-bit arithmetic and the product is a 32-bit signed
multiplication, hence `wrap32`. The subsequent `reset()` call reloads the
CNT registers and clears `globals->status`, which live outside this record.
-/
def set_period (c : WindowCounterConfig) : WindowCounterConfig :=
  { c with
    period_m := wrap32 (((c.tcb2_cmp + 1) % 65536 * (c.tcb3_cmp % 65536 + 1) : ℕ) : ℤ) }

/--
Shallow embedding of `WindowCounter::set_window_length` (window_counter.hpp
lines 126-131): it unconditionally installs
`tcb3_cmp = (uint16_t)new_length - 1u`, `tcb3_reload = tcb3_cmp - 1u`,
writes `TCB3.CCMP = tcb3_cmp` and recomputes the period. There is no
validation and no error return.
-/
def set_window_length (c : WindowCounterConfig) (new_length : ℕ) : WindowCounterConfig :=
  set_period
    { c with
      tcb3_cmp := u16sub1 new_length,
      tcb3_reload := u16sub1 (u16sub1 new_length),
      tcb3_ccmp := u16sub1 new_length }

/--
Configuration produced by the `WindowCounter` constructor: it sets
`tcb2_cmp = (uint16_t)grid_freq - 1u`, `tcb2_reload = tcb2_cmp - 1u`,
calls `set_window_length(window_length)` and finally `set_period()` again.
-/
def window_counter_init (wl : WindowLength) (gf : GridFrequency) : WindowCounterConfig :=
  set_period (set_window_length
    { tcb2_cmp := u16sub1 gf.val,
      tcb2_reload := u16sub1 (u16sub1 gf.val),
      tcb3_cmp := 0, tcb3_reload := 0, tcb3_ccmp := 0, period_m := 0 }
    wl.val)

/-! ## Negative-pulse counter, from the NegativeCounter class header -/

/--
State of the negative-pulse counter: the hardware register `TCB1.CNT`
(16-bit, counts gated pulse events) together with the software high byte
`msb` maintained by `NegativeCounter::isr`.
-/
structure NegativeCounter : Type where
  cnt : ℕ
  msb : ℕ
deriving DecidableEq, Repr

/-- Conversion of an unsigned 32-bit pattern to the `int32_t` value read
out of the `Word32` union. -/
def toInt32 (u : ℕ) : ℤ :=
  if u % 4294967296 < 2147483648 then ((u % 4294967296 : ℕ) : ℤ)
  else ((u % 4294967296 : ℕ) : ℤ) - 4294967296

/--
Shallow embedding of `NegativeCounter::get_count`: a stack-allocated
`Word32 count` union receives `count.words[0] = TCB1.CNT` (bytes 0 and 1)
and `count.bytes[2] = msb`; byte 3 is never written, so it holds whatever
indeterminate value was in that stack location, here the explicit
parameter `stack_byte3`. The function returns `count.value`, an `int32_t`.
-/
def NegativeCounter.get_count (s : NegativeCounter) (stack_byte3 : ℕ) : ℤ :=
  toInt32 (s.cnt % 65536 + s.msb % 256 * 65536 + stack_byte3 % 256 * 16777216)

/-- Shallow embedding of `NegativeCounter::isr` (the TCB1 overflow
handler): acknowledge the flag and increment the 8-bit `msb`. -/
def NegativeCounter.isr (s : NegativeCounter) : NegativeCounter :=
  { s with msb := (s.msb + 1) % 256 }

/--
One hardware counting event on TCB1: the 16-bit CNT register increments,
and on wraparound the overflow interrupt runs `NegativeCounter::isr`,
incrementing `msb`.
-/
def NegativeCounter.pulse (s : NegativeCounter) : NegativeCounter :=
  if s.cnt % 65536 = 65535 then { cnt := 0, msb := (s.msb + 1) % 256 }
  else { s with cnt := s.cnt % 65536 + 1 }

/--
Interleaved execution of `NegativeCounter::get_count` in which a counting
event and its overflow handler fire between the `count.words[0] = TCB1.CNT`
load and the `count.bytes[2] = msb` load: the low word is read from the
pre-overflow state and the high byte from the post-overflow state. The
source performs the two loads with no critical section, so this
interleaving is possible whenever the pulse source is live during a read.
-/
def NegativeCounter.get_count_during_overflow (s : NegativeCounter) (stack_byte3 : ℕ) : ℤ :=
  toInt32 (s.cnt % 65536 + (s.pulse).msb % 256 * 65536 + stack_byte3 % 256 * 16777216)

/-! ## Measurement consumer loop, from the SCPI translation unit -/

/-- The `Measurement` record: a millisecond timestamp and the signed value. -/
structure Measurement : Type where
  timestamp : ℕ
  value : ℤ
deriving DecidableEq, Repr

/-- `SCPI_BUFFER_LIMIT` from the SCPI translation unit. -/
def SCPI_BUFFER_LIMIT : ℕ := 1022

/-- Effective capacity of `Ring<Measurement, uint16_t, 1024>`: the ring
holds at most `ring_size - 1` elements before overwriting. -/
def MEAS_RING_CAPACITY : ℕ := 1023

/-- Shallow embedding of `Ring::put` (overwrite mode): append the new
element; when the ring already holds its full capacity the oldest element
is discarded. -/
def ring_put (buf : List Measurement) (m : Measurement) : List Measurement :=
  if buf.length < MEAS_RING_CAPACITY then buf ++ [m] else buf.drop 1 ++ [m]

/-- Shallow embedding of `clamp_measurement_buffer`: pop the oldest
element while the buffer size is at least `SCPI_BUFFER_LIMIT`, i.e. drop
down to `SCPI_BUFFER_LIMIT - 1` elements. -/
def clamp_measurement_buffer (buf : List Measurement) : List Measurement :=
  if buf.length < SCPI_BUFFER_LIMIT then buf
  else buf.drop (buf.length - (SCPI_BUFFER_LIMIT - 1))

/--
The file-scope state of the SCPI layer relevant to acquisition:
`g_samples_per_trigger`, `g_samples_remaining`, `g_trigger_armed`,
`g_has_last_measurement`, `g_last_measurement`, the `meas_buffer` ring,
and the ENABLE bits of the negative-pulse counter (TCB1) and the window
counter (TCB0/TCB2/TCB3), toggled by their `start()`/`stop()` methods.
-/
structure ScpiState : Type where
  samples_per_trigger : ℕ
  samples_remaining : ℕ
  trigger_armed : Bool
  has_last : Bool
  last : Measurement
  buf : List Measurement
  nc_enabled : Bool
  wc_enabled : Bool
deriving DecidableEq, Repr

/--
Shallow embedding of `capture_measurement_if_ready`. It returns without
effect while the trigger is disarmed; otherwise, under the atomic block,
when `globals->status == RESULT_AVAIL` it takes `globals->negative_counts`
as the value and clears the status to `CLEAN`. It then stamps a
`Measurement` with the tick time `ts`, clamps the buffer, appends, records
the last measurement, and for a finite trigger decrements
`g_samples_remaining`; when the count reaches zero it disarms the trigger
and stops both counters.
-/
def capture_measurement_if_ready (s : ScpiState) (g : Globals) (ts : ℕ) :
    ScpiState × Globals :=
  if s.trigger_armed = false then (s, g)
  else if g.status = Status.RESULT_AVAIL then
    let m : Measurement := { timestamp := ts, value := g.negative_counts }
    let g2 := { g with status := Status.CLEAN }
    let s2 := { s with
      buf := ring_put (clamp_measurement_buffer s.buf) m,
      last := m, has_last := true }
    if 0 < s.samples_per_trigger then
      let r := if 0 < s.samples_remaining then s.samples_remaining - 1
               else s.samples_remaining
      if r = 0 then
        ({ s2 with
            samples_remaining := r, trigger_armed := false,
            nc_enabled := false, wc_enabled := false }, g2)
      else
        ({ s2 with samples_remaining := r }, g2)
    else (s2, g2)
  else (s, g)

/--
Shallow embedding of `handle_trigger` (the INIT/TRIGGER command): it
resets the negative counter (TCB1.CNT and msb to zero), resets the window
counter (which reloads the CNT registers, outside this record, and clears
`globals->status` to `CLEAN`), starts both counters, arms the trigger and
initializes `g_samples_remaining` from `g_samples_per_trigger`.
-/
def handle_trigger (s : ScpiState) (g : Globals) (_nc : NegativeCounter) :
    ScpiState × Globals × NegativeCounter :=
  ({ s with
      nc_enabled := true, wc_enabled := true, trigger_armed := true,
      samples_remaining := s.samples_per_trigger },
   { g with status := Status.CLEAN },
   { cnt := 0, msb := 0 })

/--
Iterated consumer polling: each entry of the trace is the `Globals`
snapshot the poll observes (the interrupt handlers may have rewritten it
arbitrarily between polls) together with the tick timestamp of that poll.
-/
def run_captures (s : ScpiState) : List (Globals × ℕ) → ScpiState
  | [] => s
  | e :: rest => run_captures (capture_measurement_if_ready s e.1 e.2).1 rest

/-- Number of polls in a trace that observe `RESULT_AVAIL`. -/
def count_results (trace : List (Globals × ℕ)) : ℕ :=
  trace.countP (fun e => decide (e.1.status = Status.RESULT_AVAIL))

/-- A concrete idle SCPI state configured for a single-sample trigger. -/
def scpi_one_sample : ScpiState :=
  { samples_per_trigger := 1, samples_remaining := 0, trigger_armed := false,
    has_last := false, last := { timestamp := 0, value := 0 }, buf := [],
    nc_enabled := false, wc_enabled := false }

/-- The reset `Globals` value from globals.cpp. -/
def globals_reset : Globals :=
  { previous_charge := 0, charge_difference := 0, negative_counts := 0,
    status := Status.CLEAN }

/-- A concrete snapshot in which a result with count 5 is available. -/
def snapshot_result_5 : Globals :=
  { previous_charge := 0, charge_difference := 0, negative_counts := 5,
    status := Status.RESULT_AVAIL }

/-! ## Theorems about the fixed-point packer -/

/--
C2: for every input satisfying the documented preconditions
(`0 <= K < D`, `2048 < D < 4095`, `J <= 750000`, `I*D + K < J*D`),
`pack_q0_32` returns the round-to-nearest value
`floor(((I*D + K) * 2^32 + (J*D)/2) / (J*D))` computed with exact
integer arithmetic: none of the intermediate machine operations wraps.
-/
theorem pack_q0_32_rounds (I K J D : ℕ) (hK : K < D) (hD1 : 2048 < D)
    (hD2 : D < 4095) (hJ : J ≤ 750000) (hx : I * D + K < J * D) :
    pack_q0_32 I K J D = ((I * D + K) * 4294967296 + J * D / 2) / (J * D) := by
  have hden32 : J * D < 4294967296 := by
    have h1 : J * D ≤ 750000 * 4094 := Nat.mul_le_mul hJ (by omega)
    omega
  have hnum32 : I * D + K < 4294967296 := hx.trans hden32
  have h64 : I * D + K < 18446744073709551616 := by omega
  unfold pack_q0_32
  rw [Nat.mod_eq_of_lt hden32, Nat.mod_eq_of_lt h64, if_neg (by omega)]
  have hbig : (I * D + K) * 4294967296 + J * D / 2 < 18446744073709551616 := by
    have h2 : (I * D + K) * 4294967296 ≤ 4294967295 * 4294967296 :=
      Nat.mul_le_mul_right _ (by omega)
    omega
  rw [Nat.mod_eq_of_lt hbig]
  have hq : ((I * D + K) * 4294967296 + J * D / 2) / (J * D) < 4294967296 := by
    apply Nat.div_lt_of_lt_mul
    have h3 : (I * D + K + 1) * 4294967296 ≤ J * D * 4294967296 :=
      Nat.mul_le_mul_right _ (by omega)
    have h4 : (I * D + K + 1) * 4294967296
        = (I * D + K) * 4294967296 + 4294967296 := by ring
    omega
  rw [Nat.mod_eq_of_lt hq]

/-- Witness for `pack_q0_32_rounds` at `(I, K, J, D) = (500, 1500, 1000, 3000)`. -/
theorem pack_q0_32_rounds_witness :
    (1500 < 3000 ∧ 2048 < 3000 ∧ 3000 < 4095 ∧ 1000 ≤ 750000
      ∧ 500 * 3000 + 1500 < 1000 * 3000)
    ∧ pack_q0_32 500 1500 1000 3000
        = ((500 * 3000 + 1500) * 4294967296 + 1000 * 3000 / 2) / (1000 * 3000) :=
  ⟨by decide,
   pack_q0_32_rounds 500 1500 1000 3000 (by decide) (by decide) (by decide)
     (by decide) (by decide)⟩

/--
C6: for every `(I, K, J, D)` in the full unsigned machine ranges with
`I*D + K >= J*D` as exact integers, `pack_q0_32` saturates to
`0xFFFFFFFF`; the guard compares the exact 64-bit numerator against the
truncated 32-bit `denom`, which can only be smaller, so the saturation
branch is always taken.
-/
theorem pack_q0_32_saturates (I K J D : ℕ) (hI : I < 4294967296)
    (hK : K < 65536) (hJ : J < 4294967296) (hD : D < 65536)
    (hsat : J * D ≤ I * D + K) :
    pack_q0_32 I K J D = 4294967295 := by
  have h64 : I * D + K < 18446744073709551616 := by
    have h1 : I * D ≤ 4294967295 * 65535 :=
      Nat.mul_le_mul (by omega) (by omega)
    omega
  have h2 : J * D % 4294967296 ≤ J * D := Nat.mod_le _ _
  unfold pack_q0_32
  rw [Nat.mod_eq_of_lt h64, if_pos (by omega)]

/-- Witness for `pack_q0_32_saturates` at `(I, K, J, D) = (1, 0, 1, 1)`. -/
theorem pack_q0_32_saturates_witness :
    (1 < 4294967296 ∧ 0 < 65536 ∧ 1 < 4294967296 ∧ 1 < 65536
      ∧ 1 * 1 ≤ 1 * 1 + 0)
    ∧ pack_q0_32 1 0 1 1 = 4294967295 :=
  ⟨by decide,
   pack_q0_32_saturates 1 0 1 1 (by decide) (by decide) (by decide)
     (by decide) (by decide)⟩

/--
C10: `pack_q0_32` never divides by zero; whenever the 32-bit denominator
`(J*D) mod 2^32` is zero (in particular for `J = 0` or `D = 0`) the guard
`numer >= denom` holds and the function returns the saturation value
before reaching the division.
-/
theorem pack_q0_32_total_denom_zero (I K J D : ℕ)
    (h0 : J * D % 4294967296 = 0) :
    pack_q0_32 I K J D = 4294967295 := by
  unfold pack_q0_32
  rw [h0, if_pos (Nat.zero_le _)]

/-- Witness for `pack_q0_32_total_denom_zero` at `J = 0`, `D = 1234`. -/
theorem pack_q0_32_total_denom_zero_witness :
    0 * 1234 % 4294967296 = 0 ∧ pack_q0_32 5 7 0 1234 = 4294967295 :=
  ⟨by decide, pack_q0_32_total_denom_zero 5 7 0 1234 (by decide)⟩

/--
C8 counterexample: `pack_q0_32(999, 2999, 1000, 3000)` evaluates to
4294965864, which is 1431 LSB below `0xFFFFFFFF`, refuting the claim
that the near-unity input lands within 1 LSB of `0xFFFFFFFF`.
-/
theorem pack_q0_32_not_within_1lsb :
    pack_q0_32 999 2999 1000 3000 = 4294965864
    ∧ ¬(4294967295 - pack_q0_32 999 2999 1000 3000 ≤ 1) := by
  decide

/--
C8 amended: the exact reference evaluations of the packer. The zero input
gives 0 as claimed; the near-unity input gives 4294965864 (within 1 LSB
of `round(2^32 * (999 + 2999/3000) / 1000)` but 1431 LSB below
`0xFFFFFFFF`); the one-half-plus input gives 2149631132 (within 1 LSB of
`2^32 * 0.5005` but 2147484 LSB above `0x80000000`).
-/
theorem pack_q0_32_reference_points :
    pack_q0_32 0 0 1000 3000 = 0
    ∧ pack_q0_32 999 2999 1000 3000 = 4294965864
    ∧ 4294967295 - 4294965864 = 1431
    ∧ pack_q0_32 500 1500 1000 3000 = 2149631132
    ∧ 2149631132 - 2147483648 = 2147484 := by
  decide

/-! ## Theorems about the measurement state machine -/

/--
C1: evaluation of the event sequence [sample 5, window boundary with
count 100, sample 7] from the reset state (all globals zero, status
`CLEAN`). The status does advance CLEAN, PREV_CHARGE, NEGATIVE_COUNTS,
RESULT_AVAIL, but the stored result is `charge_difference = 7`, not
`7 - 5 = 2`: the window-boundary handler overwrites `previous_charge`
with the old `charge_difference` (0), destroying the baseline stored at
the first sample.
-/
theorem measurement_chain_drops_baseline :
    let g0 : Globals := { previous_charge := 0, charge_difference := 0,
                          negative_counts := 0, status := Status.CLEAN }
    let g1 := adc0_resrdy_isr g0 5
    let g2 := window_counter_isr g1 100 100
    let g3 := adc0_resrdy_isr g2 7
    g1.status = Status.PREV_CHARGE ∧ g1.previous_charge = 5
    ∧ g2.status = Status.NEGATIVE_COUNTS
    ∧ g3.status = Status.RESULT_AVAIL
    ∧ g3.charge_difference = 7
    ∧ g3.charge_difference ≠ 7 - 5 := by
  decide

/--
C3: a residual-charge sample arriving in state `PREV_CHARGE` leaves the
globals entirely unchanged: the baseline `previous_charge` and the status
are retained, and in particular nothing that could serve as an overrun
counter is incremented anywhere, because the handler body for this case
is only a `// todo trigger error condition` comment.
-/
theorem adc_isr_prev_charge_unchanged (g : Globals) (s : ℤ)
    (h : g.status = Status.PREV_CHARGE) :
    adc0_resrdy_isr g s = g := by
  unfold adc0_resrdy_isr
  rw [h]

/-- Witness for `adc_isr_prev_charge_unchanged` at a concrete state and
sample. -/
theorem adc_isr_prev_charge_unchanged_witness :
    ({ previous_charge := 9, charge_difference := 0, negative_counts := 0,
       status := Status.PREV_CHARGE } : Globals).status = Status.PREV_CHARGE
    ∧ adc0_resrdy_isr
        { previous_charge := 9, charge_difference := 0, negative_counts := 0,
          status := Status.PREV_CHARGE } 42
      = { previous_charge := 9, charge_difference := 0, negative_counts := 0,
          status := Status.PREV_CHARGE } :=
  ⟨rfl, adc_isr_prev_charge_unchanged _ 42 rfl⟩

/-! ## Theorems about the window counter configuration -/

/--
C4 counterexample: requesting a window length of 7 events (with the 50 Hz
sub-counter divisor 30, so `7 % 30 ≠ 0`) does not fail and does not leave
the previous configuration in effect: `set_window_length` has no error
path and unconditionally installs the new compare, reload and period
values.
-/
theorem set_window_length_no_rejection :
    7 % 30 ≠ 0
    ∧ set_window_length
        (window_counter_init WindowLength.PLC_1 GridFrequency.FREQ_50HZ) 7
      ≠ window_counter_init WindowLength.PLC_1 GridFrequency.FREQ_50HZ
    ∧ (set_window_length
        (window_counter_init WindowLength.PLC_1 GridFrequency.FREQ_50HZ) 7).tcb3_cmp
      = 6 := by
  decide

/--
C4 amended: the configuration interface cannot receive a non-divisible
window length at all. `set_window_length` accepts only the `WindowLength`
enumerators, and for every enumerator and grid frequency the installed
period equals `divisor * length`, an exact multiple of the sub-counter
divisor; no validation or error path exists or is needed on the
representable domain.
-/
theorem window_config_always_divisible (w : WindowLength) (f : GridFrequency) :
    (set_window_length
        (window_counter_init WindowLength.PLC_1 f) w.val).period_m
      = (f.val : ℤ) * (w.val : ℤ)
    ∧ (set_window_length
        (window_counter_init WindowLength.PLC_1 f) w.val).period_m
        % (f.val : ℤ) = 0 := by
  cases w <;> cases f <;> decide

/-! ## Theorems about the negative-pulse counter read -/

/--
C5: `NegativeCounter::get_count` leaves byte 3 of the stack-allocated
union unwritten; with low word 5, high byte 2 and stack residue 1 in
byte 3 it returns `0x01020005 = 16908293`, not `5 + 2 * 2^16 = 131077`,
so the upper bits of the result are not zero as the claim requires.
-/
theorem get_count_garbage_high_byte :
    NegativeCounter.get_count { cnt := 5, msb := 2 } 1 = 16908293
    ∧ NegativeCounter.get_count { cnt := 5, msb := 2 } 1 ≠ 5 + 2 * 65536
    ∧ NegativeCounter.get_count { cnt := 5, msb := 2 } 0 = 5 + 2 * 65536 := by
  decide

/--
C9 counterexample: a read from state (cnt = 0xFFFF, msb = 0) during which
one counting event and its overflow handler fire between the two loads
returns 0x1FFFF = 131071, which is neither the complete pre-overflow
count 65535 nor the complete post-overflow count 65536.
-/
theorem get_count_torn_read_exists :
    NegativeCounter.get_count_during_overflow { cnt := 65535, msb := 0 } 0 = 131071
    ∧ NegativeCounter.get_count { cnt := 65535, msb := 0 } 0 = 65535
    ∧ NegativeCounter.get_count
        (NegativeCounter.pulse { cnt := 65535, msb := 0 }) 0 = 65536
    ∧ (131071 : ℤ) ≠ 65535 ∧ (131071 : ℤ) ≠ 65536 := by
  decide

/--
C9 amended: `get_count` performs its two loads with no critical section,
so a low-word overflow between them tears the read: from any state with
`cnt = 0xFFFF` and `msb = m < 255` the interleaved read returns
`0xFFFF + (m+1) * 2^16`, which differs from both the pre-overflow count
and the post-overflow count.
-/
theorem get_count_torn_read (m : ℕ) (h : m < 255) :
    NegativeCounter.get_count_during_overflow { cnt := 65535, msb := m } 0
      = 65535 + (m + 1) * 65536
    ∧ NegativeCounter.get_count_during_overflow { cnt := 65535, msb := m } 0
      ≠ NegativeCounter.get_count { cnt := 65535, msb := m } 0
    ∧ NegativeCounter.get_count_during_overflow { cnt := 65535, msb := m } 0
      ≠ NegativeCounter.get_count
          (NegativeCounter.pulse { cnt := 65535, msb := m }) 0 := by
  have hm : m % 256 = m := Nat.mod_eq_of_lt (by omega)
  have hm1 : (m + 1) % 256 = m + 1 := Nat.mod_eq_of_lt (by omega)
  unfold NegativeCounter.get_count_during_overflow NegativeCounter.get_count
    NegativeCounter.pulse toInt32
  simp only [hm, hm1]
  norm_num
  omega

/-- Witness for `get_count_torn_read` at `m = 0`. -/
theorem get_count_torn_read_witness :
    0 < 255
    ∧ (NegativeCounter.get_count_during_overflow { cnt := 65535, msb := 0 } 0
        = 65535 + (0 + 1) * 65536
      ∧ NegativeCounter.get_count_during_overflow { cnt := 65535, msb := 0 } 0
        ≠ NegativeCounter.get_count { cnt := 65535, msb := 0 } 0
      ∧ NegativeCounter.get_count_during_overflow { cnt := 65535, msb := 0 } 0
        ≠ NegativeCounter.get_count
            (NegativeCounter.pulse { cnt := 65535, msb := 0 }) 0) :=
  ⟨by decide, get_count_torn_read 0 (by decide)⟩

/-! ## Theorems about the finite-trigger consumer loop -/

/-- While the trigger is disarmed, one consumer poll has no effect. -/
theorem capture_disarmed (s : ScpiState) (g : Globals) (ts : ℕ)
    (h : s.trigger_armed = false) :
    capture_measurement_if_ready s g ts = (s, g) := by
  unfold capture_measurement_if_ready
  rw [h]
  simp

/-- While the trigger is disarmed, any number of consumer polls has no
effect: no measurement is ever appended until a trigger command re-arms. -/
theorem run_captures_disarmed (s : ScpiState) (h : s.trigger_armed = false) :
    ∀ trace, run_captures s trace = s := by
  intro trace
  induction trace with
  | nil => rfl
  | cons e rest ih =>
      have hc : (capture_measurement_if_ready s e.1 e.2).1 = s := by
        rw [capture_disarmed s e.1 e.2 h]
      simp only [run_captures, hc]
      exact ih

/-- A poll that observes a status other than `RESULT_AVAIL` has no effect. -/
theorem capture_no_result (s : ScpiState) (g : Globals) (ts : ℕ)
    (h : g.status ≠ Status.RESULT_AVAIL) :
    capture_measurement_if_ready s g ts = (s, g) := by
  unfold capture_measurement_if_ready
  rw [if_neg h]
  simp

/-- An armed poll observing `RESULT_AVAIL` with one sample remaining
captures the measurement, disarms the trigger and stops both counters. -/
theorem capture_last_sample (s : ScpiState) (g : Globals) (ts : ℕ)
    (ha : s.trigger_armed = true) (hra : g.status = Status.RESULT_AVAIL)
    (hp : 0 < s.samples_per_trigger) (h1 : s.samples_remaining = 1) :
    (capture_measurement_if_ready s g ts).1 =
      { s with
        buf := ring_put (clamp_measurement_buffer s.buf)
                 { timestamp := ts, value := g.negative_counts },
        last := { timestamp := ts, value := g.negative_counts },
        has_last := true,
        samples_remaining := 0, trigger_armed := false,
        nc_enabled := false, wc_enabled := false } := by
  unfold capture_measurement_if_ready
  rw [ha, if_neg (by decide), if_pos hra, if_pos hp, h1]
  simp

/-- An armed poll observing `RESULT_AVAIL` with more than one sample
remaining captures the measurement and decrements the remaining count. -/
theorem capture_mid_sample (s : ScpiState) (g : Globals) (ts : ℕ)
    (ha : s.trigger_armed = true) (hra : g.status = Status.RESULT_AVAIL)
    (hp : 0 < s.samples_per_trigger) (h2 : 1 < s.samples_remaining) :
    (capture_measurement_if_ready s g ts).1 =
      { s with
        buf := ring_put (clamp_measurement_buffer s.buf)
                 { timestamp := ts, value := g.negative_counts },
        last := { timestamp := ts, value := g.negative_counts },
        has_last := true,
        samples_remaining := s.samples_remaining - 1 } := by
  unfold capture_measurement_if_ready
  rw [ha, if_neg (by decide), if_pos hra, if_pos hp,
    if_pos (by omega : 0 < s.samples_remaining),
    if_neg (by omega : ¬ s.samples_remaining - 1 = 0)]

/-- The invariant of the armed consumer loop: over any trace of polled
snapshots, the buffer grows by exactly the smaller of the remaining
sample budget and the number of available results, and once the budget is
exhausted the trigger is disarmed and both counters are stopped. -/
theorem run_captures_spec (trace : List (Globals × ℕ)) :
    ∀ s : ScpiState, s.trigger_armed = true → 0 < s.samples_per_trigger →
    0 < s.samples_remaining →
    s.buf.length + s.samples_remaining ≤ 1022 →
    (run_captures s trace).buf.length
        = s.buf.length + min s.samples_remaining (count_results trace)
    ∧ (s.samples_remaining ≤ count_results trace →
        (run_captures s trace).trigger_armed = false
        ∧ (run_captures s trace).nc_enabled = false
        ∧ (run_captures s trace).wc_enabled = false) := by
  induction trace with
  | nil =>
      intro s ha hp hr hb
      refine ⟨by simp [run_captures, count_results], ?_⟩
      intro hle
      simp [count_results] at hle
      omega
  | cons e rest ih =>
      intro s ha hp hr hb
      have hcount : count_results (e :: rest)
          = (if e.1.status = Status.RESULT_AVAIL then 1 else 0)
            + count_results rest := by
        by_cases h : e.1.status = Status.RESULT_AVAIL
        all_goals simp [count_results, List.countP_cons, h]
        all_goals omega
      by_cases hra : e.1.status = Status.RESULT_AVAIL
      · have hbuf : s.buf.length < 1022 := by omega
        have hclamp : clamp_measurement_buffer s.buf = s.buf := by
          unfold clamp_measurement_buffer
          rw [if_pos]
          simpa [SCPI_BUFFER_LIMIT] using hbuf
        have hput : ring_put s.buf
            { timestamp := e.2, value := e.1.negative_counts }
            = s.buf ++ [{ timestamp := e.2, value := e.1.negative_counts }] := by
          unfold ring_put
          rw [if_pos]
          simp [MEAS_RING_CAPACITY]
          omega
        rw [hcount, if_pos hra]
        rcases Nat.lt_or_ge 1 s.samples_remaining with h2 | h1
        · -- more than one sample remaining: decrement and recurse
          have hstep := capture_mid_sample s e.1 e.2 ha hra hp h2
          have hrun : run_captures s (e :: rest)
              = run_captures (capture_measurement_if_ready s e.1 e.2).1 rest := rfl
          rw [hrun, hstep, hclamp, hput]
          have := ih { s with
            buf := s.buf ++ [{ timestamp := e.2, value := e.1.negative_counts }],
            last := { timestamp := e.2, value := e.1.negative_counts },
            has_last := true,
            samples_remaining := s.samples_remaining - 1 }
          simp only [List.length_append, List.length_cons, List.length_nil] at this
          have hres := this ha hp (by omega) (by omega)
          constructor
          · rw [hres.1]
            omega
          · intro hle
            exact hres.2 (by omega)
        · -- exactly one sample remaining: capture, disarm, stop
          have h1e : s.samples_remaining = 1 := by omega
          have hstep := capture_last_sample s e.1 e.2 ha hra hp h1e
          have hrun : run_captures s (e :: rest)
              = run_captures (capture_measurement_if_ready s e.1 e.2).1 rest := rfl
          rw [hrun, hstep, hclamp, hput]
          have hdis := run_captures_disarmed { s with
            buf := s.buf ++ [{ timestamp := e.2, value := e.1.negative_counts }],
            last := { timestamp := e.2, value := e.1.negative_counts },
            has_last := true,
            samples_remaining := 0, trigger_armed := false,
            nc_enabled := false, wc_enabled := false } rfl rest
          rw [hdis]
          constructor
          · simp [h1e]
          · intro hle
            exact ⟨rfl, rfl, rfl⟩
      · -- no result available: the poll is a no-op
        have hstep : (capture_measurement_if_ready s e.1 e.2).1 = s := by
          rw [capture_no_result s e.1 e.2 hra]
        have hrun : run_captures s (e :: rest)
            = run_captures (capture_measurement_if_ready s e.1 e.2).1 rest := rfl
        rw [hrun, hstep, hcount, if_neg hra]
        have hres := ih s ha hp hr hb
        exact ⟨by rw [hres.1]; omega, fun hle => hres.2 (by omega)⟩

/--
C7: arming a trigger with a finite sample count `N > 0` produces exactly
`N` measurements. Starting from an empty buffer, after `handle_trigger`
the consumer loop appends one measurement per observed `RESULT_AVAIL`
until the `N`-th, the capture of which disarms the trigger and stops both
the negative-pulse counter and the window counter; over any trace the
buffer holds `min N (number of results offered)` measurements, and once
disarmed any further polling (`trace2`) leaves the state untouched until
a new trigger command re-arms.
-/
theorem finite_trigger_produces_exactly_n
    (s0 : ScpiState) (g0 : Globals) (nc0 : NegativeCounter)
    (trace trace2 : List (Globals × ℕ)) (N : ℕ)
    (hN : 0 < N) (hN2 : N ≤ 1022)
    (hcfg : s0.samples_per_trigger = N) (hbuf : s0.buf = []) :
    (run_captures (handle_trigger s0 g0 nc0).1 trace).buf.length
      = min N (count_results trace)
    ∧ (N ≤ count_results trace →
        (run_captures (handle_trigger s0 g0 nc0).1 trace).trigger_armed = false
        ∧ (run_captures (handle_trigger s0 g0 nc0).1 trace).nc_enabled = false
        ∧ (run_captures (handle_trigger s0 g0 nc0).1 trace).wc_enabled = false
        ∧ run_captures (run_captures (handle_trigger s0 g0 nc0).1 trace) trace2
          = run_captures (handle_trigger s0 g0 nc0).1 trace) := by
  have harm : (handle_trigger s0 g0 nc0).1.trigger_armed = true := rfl
  have hper : (handle_trigger s0 g0 nc0).1.samples_per_trigger = N := hcfg
  have hrem : (handle_trigger s0 g0 nc0).1.samples_remaining = N := hcfg
  have hb0 : (handle_trigger s0 g0 nc0).1.buf = [] := hbuf
  have hspec := run_captures_spec trace (handle_trigger s0 g0 nc0).1 harm
    (by omega) (by omega) (by rw [hb0, hrem]; simpa using hN2)
  rw [hb0, hrem] at hspec
  simp only [List.length_nil, Nat.zero_add] at hspec
  refine ⟨hspec.1, fun hle => ?_⟩
  have hdis := hspec.2 hle
  exact ⟨hdis.1, hdis.2.1, hdis.2.2,
    run_captures_disarmed _ hdis.1 trace2⟩

/-- Witness for `finite_trigger_produces_exactly_n` with `N = 1`, one
offered result in the trace, and one further offered result after the
trigger has auto-stopped. -/
theorem finite_trigger_produces_exactly_n_witness :
    0 < 1 ∧ (1 : ℕ) ≤ 1022
    ∧ scpi_one_sample.samples_per_trigger = 1
    ∧ scpi_one_sample.buf = []
    ∧ ((run_captures (handle_trigger scpi_one_sample globals_reset
            { cnt := 0, msb := 0 }).1
          [(snapshot_result_5, 3)]).buf.length
        = min 1 (count_results [(snapshot_result_5, 3)])
      ∧ (1 ≤ count_results [(snapshot_result_5, 3)] →
          (run_captures (handle_trigger scpi_one_sample globals_reset
              { cnt := 0, msb := 0 }).1
            [(snapshot_result_5, 3)]).trigger_armed = false
          ∧ (run_captures (handle_trigger scpi_one_sample globals_reset
              { cnt := 0, msb := 0 }).1
            [(snapshot_result_5, 3)]).nc_enabled = false
          ∧ (run_captures (handle_trigger scpi_one_sample globals_reset
              { cnt := 0, msb := 0 }).1
            [(snapshot_result_5, 3)]).wc_enabled = false
          ∧ run_captures (run_captures (handle_trigger scpi_one_sample
                globals_reset { cnt := 0, msb := 0 }).1
              [(snapshot_result_5, 3)]) [(snapshot_result_5, 4)]
            = run_captures (handle_trigger scpi_one_sample globals_reset
                { cnt := 0, msb := 0 }).1
              [(snapshot_result_5, 3)])) :=
  ⟨by decide, by decide, rfl, rfl,
   finite_trigger_produces_exactly_n scpi_one_sample globals_reset
     { cnt := 0, msb := 0 } [(snapshot_result_5, 3)] [(snapshot_result_5, 4)]
     1 (by decide) (by decide) rfl rfl⟩
